import Mathlib

/-!
Verification development for the ESP32-S3 FTP server
(`src/ESP32FtpServer.h`, `src/ESP32FtpServer.cpp`).

The C++ core is shallowly embedded: C strings are `List Char`, fixed-size
buffers are modelled by the `strlcpy`/`strlcat` truncation semantics with the
buffer sizes of the source, the session fields of class `FtpServer` form the
`Session` structure, and the external collaborators (network transport and
LittleFS filesystem backend) are oracles collected in an `Env` structure.
Control-channel replies are an inductive `Reply`, one constructor per distinct
`_client.println` text of the source; `Reply.text` records the wire strings.
Filesystem mutation calls are recorded as a list of `FsOp` events.
-/

namespace FtpServer

/-- C strings are lists of characters (no embedded NUL is ever produced by
the reader, which never stores `\r`/`\n` and stops at the terminator). -/
abbrev Str := List Char

/-- Shorthand turning a Lean string literal into the `List Char` model. -/
def str (s : String) : Str := s.toList

/-- `FTP_CMD_SIZE` from `ESP32FtpServer.h`: size of the `_cmdLine` buffer. -/
def FTP_CMD_SIZE : Nat := 256

/-- `FTP_CWD_SIZE` from `ESP32FtpServer.h`: size of `_cwd`, `_renameFrom`
and every local `path` buffer. -/
def FTP_CWD_SIZE : Nat := 512

/-- `FTP_BUF_SIZE` from `ESP32FtpServer.h`: transfer chunk buffer size. -/
def FTP_BUF_SIZE : Nat := 512

/-- `strlcpy(dst, src, size)`: copy at most `size - 1` characters and
NUL-terminate.  The resulting C string is the truncated source. -/
def strlcpy (src : Str) (size : Nat) : Str := src.take (size - 1)

/-- `strlcat(dst, src, size)`: append at most `size - 1 - strlen(dst)`
characters of `src` to `dst` (no-op when `dst` already fills the buffer). -/
def strlcat (dst src : Str) (size : Nat) : Str :=
  dst ++ src.take (size - 1 - dst.length)

/-- `strstr(hay, pat) != NULL`: does `pat` occur as a contiguous substring? -/
def hasSubstr (pat : Str) : Str → Bool
  | [] => pat.isEmpty
  | c :: rest => pat.isPrefixOf (c :: rest) || hasSubstr pat rest

/-- Index of the last occurrence of `c` (the `strrchr` offset), if any. -/
def lastIdxOf (c : Char) : Str → Option Nat
  | [] => none
  | x :: xs =>
    match lastIdxOf c xs with
    | some i => some (i + 1)
    | none => if x = c then some 0 else none

/-- ASCII `toupper` as used on the command verb. -/
def cToUpper (c : Char) : Char :=
  if 'a' ≤ c ∧ c ≤ 'z' then Char.ofNat (c.toNat - 32) else c

/-- `strchr(s, c)`: split at the first occurrence of `c`, dropping it
(the source overwrites the space with NUL). -/
def splitFirst (c : Char) : Str → Option (Str × Str)
  | [] => none
  | x :: xs =>
    if x = c then some ([], xs)
    else (splitFirst c xs).map (fun p => (x :: p.1, p.2))

/-- `strtok(s, ",")` iteration: the non-empty fields of `s` split at `sep`
(consecutive separators are collapsed, as `strtok` does). -/
def strtokSplit (sep : Char) (s : Str) : List Str :=
  (s.splitOn sep).filter (fun t => t ≠ [])

/-- Value of the leading decimal-digit run (`atoi` after sign handling). -/
def digitsVal (s : Str) : Nat :=
  (s.takeWhile Char.isDigit).foldl (fun a c => a * 10 + (c.toNat - 48)) 0

/-- C `atoi`: skip leading spaces, optional sign, leading digit run. -/
def atoiC (s : Str) : Int :=
  let t := s.dropWhile (fun c => c = ' ')
  match t with
  | '-' :: r => -(digitsVal r : Int)
  | '+' :: r => (digitsVal r : Int)
  | _ => (digitsVal t : Int)

/-!  ## Command-line reader and parser (`readCommand`, `parseCommandLine`)  -/

/-- State of the command reader: `_cmdBufferIndex` plus, for the safety
analysis, the indices at which `readCommand` performed the
`_cmdLine[_cmdBufferIndex] = '\0'` terminator store. -/
structure RdState where
  idx : Nat
  stores : List Nat
  deriving DecidableEq, Repr

/-- One `readCommand` invocation on an available byte `c` (the `-1` no-data
case is the absence of a call).  Returns the new state and the `int8_t`
result code of the source: `-2` while accumulating, `0` for an empty line,
`1` for a completed line.  On completion the terminator-store index
(`_cmdBufferIndex` at the moment of the store) is recorded. -/
def readCommand (st : RdState) (c0 : Char) : RdState × Int :=
  let c := if c0 = '\\' then '/' else c0
  if c ≠ '\r' ∧ c ≠ '\n' then
    if st.idx < FTP_CMD_SIZE then ({ st with idx := st.idx + 1 }, -2)
    else (st, -2)
  else if st.idx = 0 then (st, 0)
  else ({ idx := 0, stores := st.stores ++ [st.idx] }, 1)

/-- Feed a whole byte sequence through `readCommand`. -/
def readRun (st : RdState) : List Char → RdState
  | [] => st
  | c :: cs => readRun (readCommand st c).1 cs

/-- The characters actually accumulated in `_cmdLine` for a line: bytes are
stored only while `_cmdBufferIndex < FTP_CMD_SIZE` (backslashes already
normalized to `/` by `readCommand`). -/
def storedLine (bytes : List Char) : Str :=
  (bytes.map (fun c0 => if c0 = '\\' then '/' else c0)).take FTP_CMD_SIZE

/-- The verb as it appears on the wire: the part of the line before the
first space (the whole line if there is no space). -/
def wireVerb (cmdLine : Str) : Str :=
  match splitFirst ' ' cmdLine with
  | none => cmdLine
  | some p => p.1

/-- `parseCommandLine`: split `_cmdLine` at the first space, skip leading
spaces of the parameters, `strlcpy` the verb into `_command` (a `char[6]`,
so 5 significant characters survive) and upper-case it in place. -/
def parseCommandLine (cmdLine : Str) : Str × Str :=
  match splitFirst ' ' cmdLine with
  | none => ((strlcpy cmdLine 6).map cToUpper, [])
  | some p => ((strlcpy p.1 6).map cToUpper, p.2.dropWhile (fun c => c = ' '))

/-!  ## Path resolution (`makePath`)  -/

/-- The string built in the caller's `fullPath` buffer by `makePath` for a
non-trivial argument: absolute arguments are copied, relative ones appended
to `_cwd` (with a separator inserted when `_cwd` does not already end in
one), then one trailing slash is stripped unless the result is the root. -/
def resolveNonEmpty (cwd param : Str) : Str :=
  let f :=
    if param.head? ≠ some '/' then
      let f1 := strlcpy cwd FTP_CWD_SIZE
      let f2 := if f1.getLast? ≠ some '/' then strlcat f1 ['/'] FTP_CWD_SIZE else f1
      strlcat f2 param FTP_CWD_SIZE
    else strlcpy param FTP_CWD_SIZE
  if 1 < f.length ∧ f.getLast? = some '/' then f.dropLast else f

/-- The full resolved path, including the early `"/"`/empty-argument case. -/
def resolvePath (cwd param : Str) : Str :=
  if param = ['/'] ∨ param = [] then ['/'] else resolveNonEmpty cwd param

/-- `makePath`: `none` exactly when the source returns `false`, i.e. when
`strstr(fullPath, "../")` finds the traversal token (the early `"/"` case
returns before that check). -/
def makePath (cwd param : Str) : Option Str :=
  if param = ['/'] ∨ param = [] then some ['/']
  else if hasSubstr (str "../") (resolveNonEmpty cwd param) then none
  else some (resolveNonEmpty cwd param)

/-!  ## Session data model (`FtpServer` fields, header enums)  -/

/-- The `FTP_CMD_*` server-state enum of `ESP32FtpServer.h`. -/
inductive CmdStatus
  | idle
  | waitConnection
  | ready
  | waitUser
  | waitPass
  | waitCommand
  deriving DecidableEq, Repr

/-- The `FTP_TRANSFER_*` enum. -/
inductive TransferStatus
  | idle
  | retr
  | stor
  deriving DecidableEq, Repr

/-- The `FTP_DATA_*` data-connection-type enum. -/
inductive DataConnType
  | passive
  | active
  deriving DecidableEq, Repr

/-- Control-channel replies: one constructor per distinct `_client.println`
of the source, carrying the dynamic parts.  `Reply.text` gives the wire
string of each. -/
inductive Reply
  | syntaxError
  | tooManyAttempts
  | userNotFound
  | passwordRequired
  | invalidPassword
  | loginOk
  | pwdIs (cwd : Str)
  | cwdOk
  | cdupOk (cwd : Str)
  | alreadyRoot
  | cwdNotSet
  | dirNotFound
  | goodbye
  | transferAborted
  | pasvMode (ip : List Nat) (hi lo : Nat)
  | invalidPort
  | portOk
  | typeAscii
  | typeBinary
  | typeUnsupported
  | openingList
  | openingMlsd
  | matchesTotal (n : Nat)
  | noFilename
  | noDirname
  | fileNotFound
  | openingData
  | readyReceive
  | existsCantOpen
  | cantCreate
  | fileDeleted
  | cantDelete
  | mkdOk (path : Str)
  | cantMkdir
  | notADir
  | dirNotEmpty
  | dirRemoved
  | cantRmdir
  | rnfrAccepted
  | rnfrRequired
  | destExists
  | renameOk
  | renameFailed
  | featLine (line : String)
  | sizeIs (n : Nat)
  | systemType
  | unknownCommand
  | invalidPath
  | cantOpenData
  | noopOk
  | aborOk
  | transferComplete
  | transferCompleteRate
  deriving Repr

/-- Wire text of each reply, exactly as printed by the source.  The only
abstraction: `transferCompleteRate` elides the computed floating-point
kB/s figure (floating point is not modelled). -/
def Reply.text : Reply → String
  | .syntaxError => "500 Syntax error"
  | .tooManyAttempts => "530 Too many attempts"
  | .userNotFound => "530 User not found"
  | .passwordRequired => "331 Password required"
  | .invalidPassword => "530 Invalid password"
  | .loginOk => "230 Login successful"
  | .pwdIs cwd => "257 \"" ++ String.mk cwd ++ "\" is current directory"
  | .cwdOk => "250 CWD command successful"
  | .cdupOk cwd => "250 CDUP command successful. Current directory: \"" ++ String.mk cwd ++ "\""
  | .alreadyRoot => "250 Already at root directory"
  | .cwdNotSet => "550 Current directory not set"
  | .dirNotFound => "550 Directory not found"
  | .goodbye => "221 Goodbye"
  | .transferAborted => "426 Transfer aborted"
  | .pasvMode ip hi lo =>
      "227 Entering Passive Mode (" ++
        String.intercalate "," ((ip ++ [hi, lo]).map toString) ++ ")"
  | .invalidPort => "501 Invalid PORT format"
  | .portOk => "200 PORT command successful"
  | .typeAscii => "200 Type set to ASCII"
  | .typeBinary => "200 Type set to binary"
  | .typeUnsupported => "504 Unsupported type"
  | .openingList => "150 Opening ASCII mode data connection for file list"
  | .openingMlsd => "150 Opening ASCII mode data connection for MLSD"
  | .matchesTotal n => "226 " ++ toString n ++ " matches total"
  | .noFilename => "501 No filename given"
  | .noDirname => "501 No directory name given"
  | .fileNotFound => "550 File not found"
  | .openingData => "150 Opening data connection"
  | .readyReceive => "150 Ready to receive data"
  | .existsCantOpen => "550 File exists but can't be opened"
  | .cantCreate => "451 Can't create file"
  | .fileDeleted => "250 File deleted"
  | .cantDelete => "450 Could not delete file"
  | .mkdOk path => "257 \"" ++ String.mk path ++ "\" created"
  | .cantMkdir => "550 Can't create directory"
  | .notADir => "550 Not a directory or doesn't exist"
  | .dirNotEmpty => "550 Directory not empty"
  | .dirRemoved => "250 Directory removed"
  | .cantRmdir => "550 Could not remove directory"
  | .rnfrAccepted => "350 RNFR accepted - ready for destination"
  | .rnfrRequired => "503 RNFR required first"
  | .destExists => "553 Destination already exists"
  | .renameOk => "250 Rename successful"
  | .renameFailed => "553 Rename failed"
  | .featLine line => line
  | .sizeIs n => "213 " ++ toString n
  | .systemType => "215 UNIX Type: L8"
  | .unknownCommand => "500 Unknown command"
  | .invalidPath => "550 Invalid path"
  | .cantOpenData => "425 Can't open data connection"
  | .noopOk => "200 NOOP command successful"
  | .aborOk => "226 ABOR command successful"
  | .transferComplete => "226 Transfer complete"
  | .transferCompleteRate => "226 Transfer complete (kB/s figure elided)"

/-- Filesystem mutation calls issued to the LittleFS backend. -/
inductive FsOp
  | remove (p : Str)
  | mkdir (p : Str)
  | rmdir (p : Str)
  | rename (src dst : Str)
  | openWrite (p : Str)
  deriving DecidableEq, Repr

/-- A directory entry as enumerated by `openNextFile`. -/
structure FsEntry where
  name : String
  size : Nat
  isDir : Bool
  deriving DecidableEq, Repr

/-- The per-connection session state: the mutable fields of class
`FtpServer` that the command machinery reads or writes. -/
structure Session where
  username : Str
  password : Str
  maxAttempts : Nat
  currentAttempts : Nat
  cmdStatus : CmdStatus
  cwd : Str
  renameFrom : Str
  rnfrCmd : Bool
  transferStatus : TransferStatus
  bytesTransferred : Nat
  dataConnType : DataConnType
  dataIp : List Nat
  dataPort : Nat
  passivePort : Nat
  dataOpen : Bool
  deriving DecidableEq, Repr

/-- Responses of the external collaborators (WiFi transport and LittleFS),
which are outside the verified core: each field is the outcome the
collaborator would report for the given call. -/
structure Env where
  dataConnectOk : Bool
  localIp : List Nat
  fsExists : Str → Bool
  fsIsDir : Str → Bool
  fsOpenRead : Str → Bool
  fsOpenReadWrite : Str → Bool
  fsOpenWrite : Str → Bool
  fsMkdirOk : Str → Bool
  fsRmdirOk : Str → Bool
  fsRemoveOk : Str → Bool
  fsRenameOk : Str → Str → Bool
  fsFileSize : Str → Nat
  dirEntries : Str → List FsEntry

/-- Result of dispatching one command: new session, control-channel
replies in order, data-channel lines in order, filesystem calls in order,
and the `bool` returned by `processCommand`. -/
structure CmdResult where
  sess : Session
  replies : List Reply
  dataOut : List String
  fsOps : List FsOp
  ret : Bool
  deriving Repr

/-- `initVariables`: session reset performed on `FTP_CMD_WAIT_CONNECTION`. -/
def initVariables (s : Session) : Session :=
  { s with dataPort := s.passivePort, dataConnType := .passive,
           cwd := ['/'], rnfrCmd := false,
           transferStatus := .idle, currentAttempts := 0 }

/-- `abortTransfer`: close file and data channel and report `426` if a
transfer is in progress. -/
def abortTransfer (s : Session) : Session × List Reply :=
  if s.transferStatus ≠ .idle then
    ({ s with transferStatus := .idle, dataOpen := false }, [.transferAborted])
  else (s, [])

/-- `disconnectClient`: abort any transfer and say goodbye. -/
def disconnectClient (s : Session) : Session × List Reply :=
  let p := abortTransfer s
  (p.1, p.2 ++ [.goodbye])

/-- `authenticateUser`: charge a failed attempt (`uint8_t` counter), lock
out (`FTP_CMD_IDLE`) once the configured maximum is reached.  The
`delayResponse` timing is not modelled.  Returns the `bool` result, the
updated session, and the replies. -/
def authenticateUser (s : Session) (command params : Str) :
    Bool × Session × List Reply :=
  if command ≠ str "USER" then (false, s, [.syntaxError])
  else if params ≠ s.username then
    let a := (s.currentAttempts + 1) % 256
    if s.maxAttempts ≤ a then
      (false, { s with currentAttempts := a, cmdStatus := .idle }, [.tooManyAttempts])
    else (false, { s with currentAttempts := a }, [.userNotFound])
  else (true, s, [.passwordRequired])

/-- `authenticatePassword`: same attempt-charging logic; success resets the
counter (the `_millisEndConnection` deadline refresh is not modelled). -/
def authenticatePassword (s : Session) (command params : Str) :
    Bool × Session × List Reply :=
  if command ≠ str "PASS" then (false, s, [.syntaxError])
  else if params ≠ s.password then
    let a := (s.currentAttempts + 1) % 256
    if s.maxAttempts ≤ a then
      (false, { s with currentAttempts := a, cmdStatus := .idle }, [.tooManyAttempts])
    else (false, { s with currentAttempts := a }, [.invalidPassword])
  else (true, { s with currentAttempts := 0 }, [.loginOk])

/-- `dataConnect`: an already-connected data channel is reused; otherwise
the passive accept (bounded wait) or active outward connect is attempted,
its success reported by the transport oracle. -/
def dataConnect (s : Session) (env : Env) : Session × Bool :=
  if s.dataOpen then (s, true)
  else
    match s.dataConnType with
    | .passive =>
        if env.dataConnectOk then ({ s with dataOpen := true }, true) else (s, false)
    | .active =>
        if env.dataConnectOk then ({ s with dataOpen := true }, true) else (s, false)

/-!  ## Command handlers  -/

/-- `handleCdupCommand`: ascend one component via `strrchr(_cwd, '/')`;
when the last slash is the first character the session is already at the
root and `_cwd` is untouched; with no slash at all the final success reply
is printed with `_cwd` unchanged. -/
def handleCdupCommand (s : Session) : CmdResult :=
  if s.cwd = [] then ⟨s, [.cwdNotSet], [], [], true⟩
  else
    match lastIdxOf '/' s.cwd with
    | some i =>
        if i ≠ 0 then
          let c := s.cwd.take i
          ⟨{ s with cwd := c }, [.cdupOk c], [], [], true⟩
        else ⟨s, [.alreadyRoot], [], [], true⟩
    | none => ⟨s, [.cdupOk s.cwd], [], [], true⟩

/-- `handleCwdCommand`: `.` answers like PWD; otherwise the resolved path
must open as a directory before `_cwd` is replaced (by `strlcpy`). -/
def handleCwdCommand (s : Session) (env : Env) (params : Str) : CmdResult :=
  if params = ['.'] then ⟨s, [.pwdIs s.cwd], [], [], true⟩
  else
    match makePath s.cwd params with
    | none => ⟨s, [.invalidPath], [], [], true⟩
    | some path =>
        if env.fsIsDir path then
          ⟨{ s with cwd := strlcpy path FTP_CWD_SIZE }, [.cwdOk], [], [], true⟩
        else ⟨s, [.dirNotFound], [], [], true⟩

/-- `handlePasvCommand`: drop any data connection, select the passive port
and announce it (`_dataPort >> 8`, `_dataPort & 255`). -/
def handlePasvCommand (s : Session) (env : Env) : CmdResult :=
  let s1 := { s with dataOpen := false, dataPort := s.passivePort,
                     dataConnType := .passive }
  ⟨s1, [.pasvMode env.localIp (s1.dataPort / 256) (s1.dataPort % 256)], [], [], true⟩

/-- `handlePortCommand`: `strtok` the six comma-separated fields; the four
octets are stored as they are parsed (so a short argument leaves a partial
`_dataIp` update), a missing field yields `501`; the port is assembled into
the `uint16_t` `_dataPort` (high byte first, so a missing low field leaves
the shifted high byte behind). -/
def handlePortCommand (s : Session) (params : Str) : CmdResult :=
  let s0 := { s with dataOpen := false }
  let toks := strtokSplit ',' params
  let ip := (toks.take 4).map (fun t => ((atoiC t).emod 256).toNat)
  let s1 := { s0 with dataIp := ip ++ s0.dataIp.drop ip.length }
  if toks.length < 5 then ⟨s1, [.invalidPort], [], [], true⟩
  else
    let s2 := { s1 with
      dataPort := ((atoiC (toks.getD 4 []) * 256).emod 65536).toNat }
    if toks.length < 6 then ⟨s2, [.invalidPort], [], [], true⟩
    else
      let s3 := { s2 with
        dataPort := (((s2.dataPort : Int) + atoiC (toks.getD 5 [])).emod 65536).toNat,
        dataConnType := .active }
      ⟨s3, [.portOk], [], [], true⟩

/-- `handleTypeCommand`: only `A` and `I` are accepted. -/
def handleTypeCommand (s : Session) (params : Str) : CmdResult :=
  if params = str "A" then ⟨s, [.typeAscii], [], [], true⟩
  else if params = str "I" then ⟨s, [.typeBinary], [], [], true⟩
  else ⟨s, [.typeUnsupported], [], [], true⟩

/-- One `LIST` line per entry, as formatted by the source. -/
def listLine (e : FsEntry) : String :=
  if e.isDir then
    "drwxr-xr-x 1 owner group " ++ toString e.size ++ " Jan 1 2000 " ++ e.name
  else
    "-rw-r--r-- 1 owner group " ++ toString e.size ++ " Jan 1 2000 " ++ e.name

/-- One `MLSD` line per entry, as formatted by the source. -/
def mlsdLine (e : FsEntry) : String :=
  if e.isDir then
    "Type=dir;Size=" ++ toString e.size ++ ";Modify=20000101000000; " ++ e.name
  else
    "Type=file;Size=" ++ toString e.size ++ ";Modify=20000101000000; " ++ e.name

/-- `handleListCommand`.  (The source passes `nullptr` to `makePath` when
`_parameters` is empty, which makes `makePath` fall back to `_parameters`
itself, hence plain `params` here.) -/
def handleListCommand (s : Session) (env : Env) (params : Str) : CmdResult :=
  match dataConnect s env with
  | (s1, false) => ⟨s1, [.cantOpenData], [], [], true⟩
  | (s1, true) =>
      match makePath s1.cwd params with
      | none => ⟨{ s1 with dataOpen := false }, [.openingList, .invalidPath], [], [], true⟩
      | some path =>
          if env.fsIsDir path then
            let es := env.dirEntries path
            ⟨{ s1 with dataOpen := false },
              [.openingList, .matchesTotal es.length], es.map listLine, [], true⟩
          else
            ⟨{ s1 with dataOpen := false }, [.openingList, .dirNotFound], [], [], true⟩

/-- `handleMlsdCommand`: an empty argument becomes `"."`; a `makePath`
failure is reported twice (`makePath` prints `550 Invalid path` and the
handler prints it again). -/
def handleMlsdCommand (s : Session) (env : Env) (params : Str) : CmdResult :=
  match dataConnect s env with
  | (s1, false) => ⟨s1, [.cantOpenData], [], [], true⟩
  | (s1, true) =>
      let paramToUse := if params = [] then ['.'] else params
      match makePath s1.cwd paramToUse with
      | none =>
          ⟨{ s1 with dataOpen := false },
            [.openingMlsd, .invalidPath, .invalidPath], [], [], true⟩
      | some path =>
          if env.fsIsDir path then
            let es := env.dirEntries path
            ⟨{ s1 with dataOpen := false },
              [.openingMlsd, .matchesTotal es.length], es.map mlsdLine, [], true⟩
          else
            ⟨{ s1 with dataOpen := false }, [.openingMlsd, .dirNotFound], [], [], true⟩

/-- `handleRetrCommand`: argument, path, readable file, data channel; on
success the transfer engine is armed (`FTP_TRANSFER_RETR`). -/
def handleRetrCommand (s : Session) (env : Env) (params : Str) : CmdResult :=
  if params = [] then ⟨s, [.noFilename], [], [], true⟩
  else
    match makePath s.cwd params with
    | none => ⟨s, [.invalidPath], [], [], true⟩
    | some path =>
        if env.fsOpenRead path then
          match dataConnect s env with
          | (s1, false) => ⟨s1, [.cantOpenData], [], [], true⟩
          | (s1, true) =>
              ⟨{ s1 with transferStatus := .retr, bytesTransferred := 0 },
                [.openingData], [], [], true⟩
        else ⟨s, [.fileNotFound], [], [], true⟩

/-- `handleStorCommand`: an existing destination must reopen in `r+` mode;
the `w`-mode open (create/truncate) is recorded as a mutation; a failed
data connect removes the just-created file. -/
def handleStorCommand (s : Session) (env : Env) (params : Str) : CmdResult :=
  if params = [] then ⟨s, [.noFilename], [], [], true⟩
  else
    match makePath s.cwd params with
    | none => ⟨s, [.invalidPath], [], [], true⟩
    | some path =>
        if env.fsExists path ∧ ¬ env.fsOpenReadWrite path then
          ⟨s, [.existsCantOpen], [], [], true⟩
        else if env.fsOpenWrite path then
          match dataConnect s env with
          | (s1, false) =>
              ⟨s1, [.cantOpenData], [], [.openWrite path, .remove path], true⟩
          | (s1, true) =>
              ⟨{ s1 with transferStatus := .stor, bytesTransferred := 0 },
                [.readyReceive], [], [.openWrite path], true⟩
        else ⟨s, [.cantCreate], [], [], true⟩

/-- `handleDeleCommand`. -/
def handleDeleCommand (s : Session) (env : Env) (params : Str) : CmdResult :=
  if params = [] then ⟨s, [.noFilename], [], [], true⟩
  else
    match makePath s.cwd params with
    | none => ⟨s, [.invalidPath], [], [], true⟩
    | some path =>
        if env.fsExists path then
          if env.fsRemoveOk path then ⟨s, [.fileDeleted], [], [.remove path], true⟩
          else ⟨s, [.cantDelete], [], [.remove path], true⟩
        else ⟨s, [.fileNotFound], [], [], true⟩

/-- `handleMkdCommand`. -/
def handleMkdCommand (s : Session) (env : Env) (params : Str) : CmdResult :=
  if params = [] then ⟨s, [.noDirname], [], [], true⟩
  else
    match makePath s.cwd params with
    | none => ⟨s, [.invalidPath], [], [], true⟩
    | some path =>
        if env.fsMkdirOk path then ⟨s, [.mkdOk path], [], [.mkdir path], true⟩
        else ⟨s, [.cantMkdir], [], [.mkdir path], true⟩

/-- `handleRmdCommand`: the target must open as a directory and yield no
entry from `openNextFile` before `rmdir` is attempted. -/
def handleRmdCommand (s : Session) (env : Env) (params : Str) : CmdResult :=
  if params = [] then ⟨s, [.noDirname], [], [], true⟩
  else
    match makePath s.cwd params with
    | none => ⟨s, [.invalidPath], [], [], true⟩
    | some path =>
        if env.fsIsDir path then
          if env.dirEntries path = [] then
            if env.fsRmdirOk path then ⟨s, [.dirRemoved], [], [.rmdir path], true⟩
            else ⟨s, [.cantRmdir], [], [.rmdir path], true⟩
          else ⟨s, [.dirNotEmpty], [], [], true⟩
        else ⟨s, [.notADir], [], [], true⟩

/-- `handleRnfrCommand`: `makePath` writes its result into `_renameFrom`
before the traversal check, so the buffer is updated even on rejection;
the marker is set only when the source exists. -/
def handleRnfrCommand (s : Session) (env : Env) (params : Str) : CmdResult :=
  if params = [] then ⟨s, [.noFilename], [], [], true⟩
  else
    let s1 := { s with renameFrom := resolvePath s.cwd params }
    match makePath s.cwd params with
    | none => ⟨s1, [.invalidPath], [], [], true⟩
    | some path =>
        if env.fsExists path then
          ⟨{ s1 with rnfrCmd := true }, [.rnfrAccepted], [], [], true⟩
        else ⟨s1, [.fileNotFound], [], [], true⟩

/-- `handleRntoCommand`: requires a prior RNFR; an existing destination is
a `553` conflict with no filesystem call; every branch past the first
check clears `_rnfrCmd`. -/
def handleRntoCommand (s : Session) (env : Env) (params : Str) : CmdResult :=
  if ¬ s.rnfrCmd then ⟨s, [.rnfrRequired], [], [], true⟩
  else if params = [] then
    ⟨{ s with rnfrCmd := false }, [.noFilename], [], [], true⟩
  else
    match makePath s.cwd params with
    | none => ⟨{ s with rnfrCmd := false }, [.invalidPath], [], [], true⟩
    | some path =>
        if env.fsExists path then
          ⟨{ s with rnfrCmd := false }, [.destExists], [], [], true⟩
        else if env.fsRenameOk s.renameFrom path then
          ⟨{ s with rnfrCmd := false }, [.renameOk], [], [.rename s.renameFrom path], true⟩
        else
          ⟨{ s with rnfrCmd := false }, [.renameFailed], [], [.rename s.renameFrom path], true⟩

/-- `handleSizeCommand`. -/
def handleSizeCommand (s : Session) (env : Env) (params : Str) : CmdResult :=
  if params = [] then ⟨s, [.noFilename], [], [], true⟩
  else
    match makePath s.cwd params with
    | none => ⟨s, [.invalidPath], [], [], true⟩
    | some path =>
        if env.fsOpenRead path then ⟨s, [.sizeIs (env.fsFileSize path)], [], [], true⟩
        else ⟨s, [.fileNotFound], [], [], true⟩

/-- `handleNoopCommand` — defined in the source but never dispatched by
`processCommand`. -/
def handleNoopCommand (s : Session) : CmdResult :=
  ⟨s, [.noopOk], [], [], true⟩

/-- `handleAborCommand` — defined in the source but never dispatched by
`processCommand`. -/
def handleAborCommand (s : Session) : CmdResult :=
  let p := abortTransfer s
  ⟨p.1, p.2 ++ [.aborOk], [], [], true⟩

/-- `processCommand`: the verb dispatch chain, in source order.  `PWD`,
`QUIT`, `FEAT` and `SYST` are inlined in the source exactly as here; there
is no `NOOP` or `ABOR` case, so both fall through to the unknown-command
reply.  Returns `false` only for `QUIT`. -/
def processCommand (s : Session) (env : Env) (command params : Str) : CmdResult :=
  if command = str "CDUP" then handleCdupCommand s
  else if command = str "CWD" then handleCwdCommand s env params
  else if command = str "PWD" then ⟨s, [.pwdIs s.cwd], [], [], true⟩
  else if command = str "QUIT" then
    let p := disconnectClient s
    ⟨p.1, p.2, [], [], false⟩
  else if command = str "PASV" then handlePasvCommand s env
  else if command = str "PORT" then handlePortCommand s params
  else if command = str "TYPE" then handleTypeCommand s params
  else if command = str "LIST" then handleListCommand s env params
  else if command = str "MLSD" then handleMlsdCommand s env params
  else if command = str "RETR" then handleRetrCommand s env params
  else if command = str "STOR" then handleStorCommand s env params
  else if command = str "DELE" then handleDeleCommand s env params
  else if command = str "MKD" then handleMkdCommand s env params
  else if command = str "RMD" then handleRmdCommand s env params
  else if command = str "RNFR" then handleRnfrCommand s env params
  else if command = str "RNTO" then handleRntoCommand s env params
  else if command = str "FEAT" then
    ⟨s, [.featLine "211-Extensions supported:", .featLine " MLSD",
         .featLine " SIZE", .featLine " MDTM", .featLine "211 End"], [], [], true⟩
  else if command = str "SIZE" then handleSizeCommand s env params
  else if command = str "SYST" then ⟨s, [.systemType], [], [], true⟩
  else ⟨s, [.unknownCommand], [], [], true⟩

/-- `processCurrentState`: the post-login state machine step run on each
complete command line.  In `FTP_CMD_WAIT_USER`/`FTP_CMD_WAIT_PASS` a
failed authentication — any failed authentication — drops the session to
`FTP_CMD_IDLE`; deadline refreshes (`_millisEndConnection`) are not
modelled.  The `switch` has no case for the remaining states. -/
def processCurrentState (s : Session) (env : Env) (command params : Str) : CmdResult :=
  match s.cmdStatus with
  | .waitUser =>
      let r := authenticateUser s command params
      if r.1 then ⟨{ r.2.1 with cmdStatus := .waitPass }, r.2.2, [], [], true⟩
      else ⟨{ r.2.1 with cmdStatus := .idle }, r.2.2, [], [], true⟩
  | .waitPass =>
      let r := authenticatePassword s command params
      if r.1 then ⟨{ r.2.1 with cmdStatus := .waitCommand }, r.2.2, [], [], true⟩
      else ⟨{ r.2.1 with cmdStatus := .idle }, r.2.2, [], [], true⟩
  | .waitCommand =>
      let r := processCommand s env command params
      if r.ret then r
      else ⟨{ r.sess with cmdStatus := .idle }, r.replies, r.dataOut, r.fsOps, r.ret⟩
  | _ => ⟨s, [], [], [], true⟩

/-!  ## Transfer engine (`doRetrieve`, `doStore`, `closeTransfer`,
`handleDataTransfers`)

The open `_file` is modelled by its content and the read position, the data
channel by the byte lists already sent / still pending, and each poll of
`handleFTP` runs `handleDataTransfers` once.  `duration` stands for
`millis() - _millisBeginTransfer` at completion time (only the choice of
completion-reply variant depends on it). -/

/-- Transfer-engine state. -/
structure TransferSt where
  fileContent : List Nat
  filePos : Nat
  fileWritten : List Nat
  dataIn : List Nat
  dataConnected : Bool
  bytesTransferred : Nat
  transferStatus : TransferStatus
  ctrlOut : List Reply
  dataSent : List Nat
  chunks : List Nat
  deriving Repr

/-- The completion reply of `closeTransfer`: the kB/s variant is used when
both the elapsed time and the byte count are positive. -/
def completionReply (duration bytes : Nat) : Reply :=
  if 0 < duration ∧ 0 < bytes then .transferCompleteRate else .transferComplete

/-- `closeTransfer`: emit the completion reply, close file and data
channel, return the engine to idle. -/
def closeTransfer (duration : Nat) (st : TransferSt) : TransferSt :=
  { st with transferStatus := .idle,
            ctrlOut := st.ctrlOut ++ [completionReply duration st.bytesTransferred] }

/-- `doRetrieve`: `_file.readBytes(_buffer, FTP_BUF_SIZE)` reads the next
chunk of at most `FTP_BUF_SIZE` bytes; a positive read is written to the
data channel and counted, a zero read completes the transfer. -/
def doRetrieve (duration : Nat) (st : TransferSt) : TransferSt × Bool :=
  let chunk := (st.fileContent.drop st.filePos).take FTP_BUF_SIZE
  if 0 < chunk.length then
    ({ st with filePos := st.filePos + chunk.length,
               bytesTransferred := st.bytesTransferred + chunk.length,
               dataSent := st.dataSent ++ chunk,
               chunks := st.chunks ++ [chunk.length] }, true)
  else (closeTransfer duration st, false)

/-- `doStore`: a lost data connection completes the transfer; otherwise up
to `FTP_BUF_SIZE` pending data-channel bytes are written to the file. -/
def doStore (duration : Nat) (st : TransferSt) : TransferSt × Bool :=
  if ¬ st.dataConnected then (closeTransfer duration st, false)
  else
    let chunk := st.dataIn.take FTP_BUF_SIZE
    if 0 < chunk.length then
      ({ st with dataIn := st.dataIn.drop FTP_BUF_SIZE,
                 fileWritten := st.fileWritten ++ chunk,
                 bytesTransferred := st.bytesTransferred + chunk.length }, true)
    else (closeTransfer duration st, false)

/-- `handleDataTransfers`: one poll of the transfer engine. -/
def handleDataTransfers (duration : Nat) (st : TransferSt) : TransferSt :=
  match st.transferStatus with
  | .retr =>
      let p := doRetrieve duration st
      if p.2 then p.1 else { p.1 with transferStatus := .idle }
  | .stor =>
      let p := doStore duration st
      if p.2 then p.1 else { p.1 with transferStatus := .idle }
  | .idle => st

/-- Run up to `fuel` polls of `handleDataTransfers`, stopping once the
engine is idle (further polls would be no-ops). -/
def runTransfer (duration : Nat) : Nat → TransferSt → TransferSt
  | 0, st => st
  | fuel + 1, st =>
      if st.transferStatus = .idle then st
      else runTransfer duration fuel (handleDataTransfers duration st)

/-- The chunk sizes produced when `n` bytes are moved `FTP_BUF_SIZE` bytes
at a time. -/
def chunkSizes (n : Nat) : List Nat :=
  if h : n = 0 then [] else min FTP_BUF_SIZE n :: chunkSizes (n - min FTP_BUF_SIZE n)
termination_by n
decreasing_by
  have h1 : 0 < min FTP_BUF_SIZE n := by
    have : 0 < n := Nat.pos_of_ne_zero h
    simp [FTP_BUF_SIZE]
    omega
  omega

/-- Is a reply one of the two `226 Transfer complete` variants? -/
def isCompletionReply : Reply → Bool
  | .transferComplete => true
  | .transferCompleteRate => true
  | _ => false

/-- The engine state at the instant a `RETR` transfer of `content` has just
been armed by `handleRetrCommand` (`_bytesTransferred = 0`, read position
at the start of the file). -/
def startRetrSt (content : List Nat) : TransferSt :=
  { fileContent := content, filePos := 0, fileWritten := [], dataIn := [],
    dataConnected := true, bytesTransferred := 0, transferStatus := .retr,
    ctrlOut := [], dataSent := [], chunks := [] }

/-!  ## Concrete fixtures for witnesses and counterexamples  -/

/-- A default authenticated session (fields as after `begin` +
`initVariables` + login with user `alice`). -/
def demoSession : Session :=
  { username := str "alice", password := str "secret",
    maxAttempts := 3, currentAttempts := 0, cmdStatus := .waitCommand,
    cwd := ['/'], renameFrom := [], rnfrCmd := false,
    transferStatus := .idle, bytesTransferred := 0,
    dataConnType := .passive, dataIp := [0, 0, 0, 0],
    dataPort := 55600, passivePort := 55600, dataOpen := false }

/-- An environment whose collaborators all succeed. -/
def envAllOk : Env :=
  { dataConnectOk := true, localIp := [192, 168, 0, 10],
    fsExists := fun _ => true, fsIsDir := fun _ => true,
    fsOpenRead := fun _ => true, fsOpenReadWrite := fun _ => true,
    fsOpenWrite := fun _ => true, fsMkdirOk := fun _ => true,
    fsRmdirOk := fun _ => true, fsRemoveOk := fun _ => true,
    fsRenameOk := fun _ _ => true, fsFileSize := fun _ => 0,
    dirEntries := fun _ => [] }

/-- An environment whose data-channel establishment fails. -/
def envNoData : Env :=
  { envAllOk with dataConnectOk := false }

/-- The working-directory invariant of the specification: absolute
(slash-rooted) with no trailing slash except when it is the root itself. -/
def goodCwd (p : Str) : Prop :=
  p.head? = some '/' ∧ (p.getLast? = some '/' → p = ['/'])

instance (p : Str) : Decidable (goodCwd p) := by
  unfold goodCwd
  infer_instance

/-- The weaker property that is actually invariant: the working directory
starts with the root slash. -/
def slashRooted (p : Str) : Prop := p.head? = some '/'

instance (p : Str) : Decidable (slashRooted p) := by
  unfold slashRooted
  infer_instance

/-!  # Theorems  -/

section Lemmas

/-- `readRun` processes concatenated input piecewise. -/
theorem readRun_append (a b : List Char) (st : RdState) :
    readRun st (a ++ b) = readRun (readRun st a) b := by
  induction a generalizing st with
  | nil => rfl
  | cons c cs ih => simp [readRun, ih]

/-- Feeding `n` ordinary bytes advances `_cmdBufferIndex` by `n` as long as
the buffer bound is not yet hit. -/
theorem readRun_replicate (n : Nat) (st : RdState)
    (h : st.idx + n ≤ FTP_CMD_SIZE) :
    readRun st (List.replicate n 'A') = { st with idx := st.idx + n } := by
  induction n generalizing st with
  | zero => simp [readRun]
  | succ n ih =>
      rw [List.replicate_succ]
      have hlt : st.idx < FTP_CMD_SIZE := by omega
      have hc : readCommand st 'A' = ({ st with idx := st.idx + 1 }, -2) := by
        simp [readCommand, hlt]
      rw [readRun, hc]
      dsimp only
      rw [ih _ (by simp; omega)]
      have : st.idx + 1 + n = st.idx + (n + 1) := by omega
      simp [this]

/-- `strrchr` finds nothing when the character does not occur. -/
theorem lastIdxOf_eq_none (c : Char) (l : Str) (h : c ∉ l) :
    lastIdxOf c l = none := by
  induction l with
  | nil => rfl
  | cons x xs ih =>
      rw [List.mem_cons, not_or] at h
      unfold lastIdxOf
      rw [ih h.2]
      simp only []
      rw [if_neg (fun hx => h.1 hx.symm)]

/-- `strrchr` on `l ++ '/' :: b` with no slash in `b` points at position
`l.length`. -/
theorem lastIdxOf_append_slash (b : Str) (hb : '/' ∉ b) :
    ∀ l : Str, lastIdxOf '/' (l ++ '/' :: b) = some l.length := by
  intro l
  induction l with
  | nil =>
      simp only [List.nil_append, lastIdxOf]
      rw [lastIdxOf_eq_none _ _ hb]
      simp
  | cons x xs ih =>
      simp only [List.cons_append, lastIdxOf, List.append_eq]
      rw [ih]
      simp

end Lemmas

/-- Claim C1: the specification says a wrong `USER` (or `PASS`) below the
configured maximum of attempts keeps the session in the awaiting state and
only exhaustion forces `Idle`.  The code contradicts this: on the very
first wrong `USER` (counter 0, maximum 3, reply `530 User not found`, not
the lockout reply) `processCurrentState`'s unconditional `else` branch
drops the session to `FTP_CMD_IDLE`, and likewise for a wrong `PASS`. -/
theorem c1_first_wrong_user_goes_idle :
    ((processCurrentState { demoSession with cmdStatus := .waitUser }
        envAllOk (str "USER") (str "bob")).sess.cmdStatus = .idle ∧
     (processCurrentState { demoSession with cmdStatus := .waitUser }
        envAllOk (str "USER") (str "bob")).sess.currentAttempts = 1 ∧
     (processCurrentState { demoSession with cmdStatus := .waitUser }
        envAllOk (str "USER") (str "bob")).replies = [.userNotFound]) ∧
    ((processCurrentState { demoSession with cmdStatus := .waitPass }
        envAllOk (str "PASS") (str "wrong")).sess.cmdStatus = .idle ∧
     (processCurrentState { demoSession with cmdStatus := .waitPass }
        envAllOk (str "PASS") (str "wrong")).replies = [.invalidPassword]) :=
  ⟨⟨rfl, rfl, rfl⟩, rfl, rfl⟩

/-- Claim C2: the specification lists `NOOP` and `ABOR` among the
supported verbs, and the source defines `handleNoopCommand` and
`handleAborCommand` with the claimed replies — but `processCommand` has no
case for either verb, so both fall through to the generic
`500 Unknown command` reply in every session state and environment. -/
theorem c2_noop_abor_fall_through (s : Session) (env : Env) (params : Str) :
    (processCommand s env (str "NOOP") params).replies = [.unknownCommand] ∧
    (processCommand s env (str "ABOR") params).replies = [.unknownCommand] ∧
    (handleNoopCommand s).replies = [.noopOk] ∧
    (handleAborCommand { s with transferStatus := .retr }).replies
      = [.transferAborted, .aborOk] :=
  ⟨rfl, rfl, rfl, rfl⟩

/-- Claim C2 witness: the fall-through at a concrete session. -/
theorem c2_noop_abor_fall_through_witness :
    (processCommand demoSession envAllOk (str "NOOP") []).replies
      = [.unknownCommand] ∧
    (processCommand demoSession envAllOk (str "ABOR") []).replies
      = [.unknownCommand] :=
  ⟨(c2_noop_abor_fall_through demoSession envAllOk []).1,
   (c2_noop_abor_fall_through demoSession envAllOk []).2.1⟩

/-- Claim C3: whenever the path built in the `fullPath` buffer contains
the traversal token `"../"` anywhere, `makePath` reports the invalid-path
error and returns failure. -/
theorem c3_traversal_rejected (cwd param : Str)
    (h : hasSubstr (str "../") (resolvePath cwd param) = true) :
    makePath cwd param = none := by
  unfold makePath
  unfold resolvePath at h
  by_cases he : param = ['/'] ∨ param = []
  · rw [if_pos he] at h
    exact absurd h (by decide)
  · rw [if_neg he] at h
    rw [if_neg he, if_pos h]

/-- Claim C3 witness: resolving `../../etc` against working directory
`/a` yields `/a/../../etc`, which contains the token and is rejected. -/
theorem c3_traversal_rejected_witness :
    hasSubstr (str "../") (resolvePath (str "/a") (str "../../etc")) = true ∧
    makePath (str "/a") (str "../../etc") = none :=
  ⟨by decide, c3_traversal_rejected _ _ (by decide)⟩

/-- Claim C4: the claim states the `_cmdLine[_cmdBufferIndex] = '\0'`
store index is always below `FTP_CMD_SIZE`.  It is not: after exactly
`FTP_CMD_SIZE` non-terminator bytes the guarded appends leave
`_cmdBufferIndex = 256`, and the terminator then stores the NUL at index
256 of the 256-byte buffer — one element past the end. -/
theorem c4_terminator_store_out_of_bounds :
    (readRun ⟨0, []⟩ (List.replicate FTP_CMD_SIZE 'A' ++ ['\r'])).stores
      = [FTP_CMD_SIZE] ∧
    ¬ (FTP_CMD_SIZE < FTP_CMD_SIZE) := by
  constructor
  · rw [readRun_append, readRun_replicate FTP_CMD_SIZE ⟨0, []⟩ (by decide)]
    decide
  · decide

/-- Claim C9 counterexample: the claim bounds the stored verb by 4
significant characters, but `_command` is a `char[6]` and
`strlcpy(_command, _cmdLine, sizeof(_command))` keeps 5: the line `HELLO`
stores the 5-character verb `HELLO`. -/
theorem c9_counterexample :
    (parseCommandLine (str "HELLO")).1 = str "HELLO" ∧
    ¬ ((parseCommandLine (str "HELLO")).1.length ≤ 4) := by
  decide

/-- Claim C9 (amended): the stored verb is the upper-cased wire verb
truncated to at most 5 significant characters (plus NUL terminator), and a
verb of 5 or more characters on the wire yields a stored verb of exactly 5
characters. -/
theorem c9_verb_uppercased_truncated (line : Str) :
    (parseCommandLine line).1 = ((wireVerb line).take 5).map cToUpper ∧
    (parseCommandLine line).1.length ≤ 5 ∧
    (5 ≤ (wireVerb line).length → (parseCommandLine line).1.length = 5) := by
  have hw : (parseCommandLine line).1 = ((wireVerb line).take 5).map cToUpper := by
    unfold parseCommandLine wireVerb strlcpy
    cases h : splitFirst ' ' line <;> rfl
  refine ⟨hw, ?_, fun h5 => ?_⟩
  · rw [hw]
    simp
  · rw [hw]
    simp
    omega

/-- Claim C9 witness: a 7-character line whose wire verb `HELLO` has 5
characters is stored with exactly 5 characters. -/
theorem c9_verb_uppercased_truncated_witness :
    5 ≤ (wireVerb (str "HELLO x")).length ∧
    (parseCommandLine (str "HELLO x")).1.length = 5 :=
  ⟨by decide, (c9_verb_uppercased_truncated (str "HELLO x")).2.2 (by decide)⟩

/-- Claim C6: from a working directory of exactly one component
(`'/' :: a`, with `a` a non-empty slash-free component) `CDUP` leaves the
directory unchanged and answers `250 Already at root directory` — it does
not ascend to `/`; from two or more components (`'/' :: a ++ '/' :: b`)
the last component is removed. -/
theorem c6_cdup_single_component (a b : Str)
    (ha : a ≠ []) (ha2 : '/' ∉ a) (hb : b ≠ []) (hb2 : '/' ∉ b)
    (s : Session) :
    (s.cwd = '/' :: a →
       (handleCdupCommand s).sess.cwd = '/' :: a ∧
       (handleCdupCommand s).replies = [.alreadyRoot]) ∧
    (s.cwd = '/' :: a ++ '/' :: b →
       (handleCdupCommand s).sess.cwd = '/' :: a ∧
       (handleCdupCommand s).replies = [.cdupOk ('/' :: a)]) := by
  constructor
  · intro h
    have h0 : lastIdxOf '/' s.cwd = some 0 := by
      rw [h]
      unfold lastIdxOf
      rw [lastIdxOf_eq_none _ _ ha2]
      simp
    unfold handleCdupCommand
    rw [if_neg (by rw [h]; simp), h0]
    simp [h]
  · intro h
    have h0 : lastIdxOf '/' s.cwd = some (a.length + 1) := by
      rw [h, show ('/' :: a ++ '/' :: b) = (('/' :: a) ++ '/' :: b) from rfl,
          lastIdxOf_append_slash b hb2]
      simp
    have htake : s.cwd.take (a.length + 1) = '/' :: a := by
      rw [h]
      exact List.take_left' (by simp)
    unfold handleCdupCommand
    rw [if_neg (by rw [h]; simp), h0]
    simp [htake]

/-- Claim C6 witness: `CDUP` from `/a` replies already-at-root and keeps
`/a`; `CDUP` from `/a/b` moves to `/a`. -/
theorem c6_cdup_single_component_witness :
    ((handleCdupCommand { demoSession with cwd := str "/a" }).sess.cwd = str "/a" ∧
     (handleCdupCommand { demoSession with cwd := str "/a" }).replies
        = [.alreadyRoot]) ∧
    ((handleCdupCommand { demoSession with cwd := str "/a/b" }).sess.cwd = str "/a" ∧
     (handleCdupCommand { demoSession with cwd := str "/a/b" }).replies
        = [.cdupOk (str "/a")]) :=
  ⟨(c6_cdup_single_component ['a'] ['b'] (by decide) (by decide) (by decide)
      (by decide) { demoSession with cwd := str "/a" }).1 rfl,
   (c6_cdup_single_component ['a'] ['b'] (by decide) (by decide) (by decide)
      (by decide) { demoSession with cwd := str "/a/b" }).2 rfl⟩

/-- Claim C7: `RNTO` is rejected with `503` unless a prior `RNFR` set the
rename-pending marker; the marker is false after the handler in every
outcome; and with an existing resolved destination the handler replies
with the `553` conflict and issues no filesystem call, leaving the source
untouched. -/
theorem c7_rnto_contract (s : Session) (env : Env) (params : Str) :
    (s.rnfrCmd = false →
       handleRntoCommand s env params = ⟨s, [.rnfrRequired], [], [], true⟩) ∧
    (handleRntoCommand s env params).sess.rnfrCmd = false ∧
    (∀ path, s.rnfrCmd = true → params ≠ [] →
       makePath s.cwd params = some path → env.fsExists path = true →
       (handleRntoCommand s env params).replies = [.destExists] ∧
       (handleRntoCommand s env params).fsOps = []) := by
  refine ⟨fun h => by simp [handleRntoCommand, h], ?_, ?_⟩
  · unfold handleRntoCommand
    by_cases hr : s.rnfrCmd
    · simp only [hr, not_true_eq_false, if_false]
      split
      · rfl
      · split
        · rfl
        · split_ifs <;> rfl
    · simp only [hr]
      simp at hr
      simp [hr]
  · intro path hr hp hmk hex
    simp [handleRntoCommand, hr, hp, hmk, hex]

/-- Claim C7 witness: renaming to existing `/b` after an accepted RNFR. -/
theorem c7_rnto_contract_witness :
    (handleRntoCommand { demoSession with rnfrCmd := true } envAllOk
        (str "b")).sess.rnfrCmd = false ∧
    (handleRntoCommand { demoSession with rnfrCmd := true } envAllOk
        (str "b")).replies = [.destExists] ∧
    (handleRntoCommand { demoSession with rnfrCmd := true } envAllOk
        (str "b")).fsOps = [] ∧
    handleRntoCommand demoSession envAllOk (str "b")
      = ⟨demoSession, [.rnfrRequired], [], [], true⟩ :=
  ⟨(c7_rnto_contract { demoSession with rnfrCmd := true } envAllOk (str "b")).2.1,
   ((c7_rnto_contract { demoSession with rnfrCmd := true } envAllOk (str "b")).2.2
      (str "/b") rfl (by decide) (by decide) rfl).1,
   ((c7_rnto_contract { demoSession with rnfrCmd := true } envAllOk (str "b")).2.2
      (str "/b") rfl (by decide) (by decide) rfl).2,
   (c7_rnto_contract demoSession envAllOk (str "b")).1 rfl⟩

section TransferLemmas

/-- `chunkSizes` inventories exactly `n` bytes. -/
theorem chunkSizes_sum (n : Nat) : (chunkSizes n).sum = n := by
  induction n using Nat.strong_induction_on with
  | _ n ih =>
      rw [chunkSizes]
      by_cases h : n = 0
      · simp [h]
      · have hm : 0 < min FTP_BUF_SIZE n := by
          have : 0 < n := Nat.pos_of_ne_zero h
          simp [FTP_BUF_SIZE]
          omega
        have hle : min FTP_BUF_SIZE n ≤ n := Nat.min_le_right _ _
        simp only [h, dite_false]
        rw [List.sum_cons, ih (n - min FTP_BUF_SIZE n) (by omega)]
        omega

/-- No chunks remain for zero bytes. -/
theorem chunkSizes_zero : chunkSizes 0 = [] := by
  rw [chunkSizes]
  simp

/-- Every chunk size is positive and bounded by `FTP_BUF_SIZE`. -/
theorem chunkSizes_mem (n : Nat) :
    ∀ c ∈ chunkSizes n, 0 < c ∧ c ≤ FTP_BUF_SIZE := by
  induction n using Nat.strong_induction_on with
  | _ n ih =>
      intro c hc
      rw [chunkSizes] at hc
      by_cases h : n = 0
      · simp [h] at hc
      · have hm : 0 < min FTP_BUF_SIZE n := by
          have : 0 < n := Nat.pos_of_ne_zero h
          simp [FTP_BUF_SIZE]
          omega
        simp only [h, dite_false, List.mem_cons] at hc
        rcases hc with hc | hc
        · subst hc
          exact ⟨hm, Nat.min_le_left _ _⟩
        · exact ih (n - min FTP_BUF_SIZE n) (by omega) c hc

/-- An idle engine is a fixed point of the poll loop. -/
theorem runTransfer_idle (d fuel : Nat) (st : TransferSt)
    (h : st.transferStatus = .idle) : runTransfer d fuel st = st := by
  cases fuel with
  | zero => rfl
  | succ f => simp [runTransfer, h]

/-- `l.take k ++ l.drop (l.take k).length = l`: the chunk just read plus
the still-unread rest reassemble the file suffix. -/
theorem take_append_drop_length {α : Type} (l : List α) (k : Nat) :
    l.take k ++ l.drop (l.take k).length = l := by
  rw [List.length_take]
  rcases le_total k l.length with h | h
  · rw [Nat.min_eq_left h]
    exact List.take_append_drop k l
  · rw [Nat.min_eq_right h, List.take_of_length_le h, List.drop_length,
        List.append_nil]

/-- Behaviour of the poll loop on an armed `RETR` engine: with enough fuel
the whole remaining file suffix is sent, the byte counter advances by its
length, the chunk trace is `chunkSizes` of it, and exactly the completion
reply is appended. -/
theorem runTransfer_retr (d : Nat) :
    ∀ fuel (st : TransferSt), st.transferStatus = .retr →
      st.fileContent.length - st.filePos + 1 ≤ fuel →
      (runTransfer d fuel st).transferStatus = .idle ∧
      (runTransfer d fuel st).fileContent = st.fileContent ∧
      (runTransfer d fuel st).dataSent
        = st.dataSent ++ st.fileContent.drop st.filePos ∧
      (runTransfer d fuel st).bytesTransferred
        = st.bytesTransferred + (st.fileContent.length - st.filePos) ∧
      (runTransfer d fuel st).chunks
        = st.chunks ++ chunkSizes (st.fileContent.length - st.filePos) ∧
      (runTransfer d fuel st).ctrlOut
        = st.ctrlOut ++ [completionReply d
            (st.bytesTransferred + (st.fileContent.length - st.filePos))] := by
  intro fuel
  induction fuel with
  | zero => intro st _ hf; omega
  | succ fuel ih =>
      intro st hst hf
      rw [runTransfer, if_neg (by rw [hst]; simp)]
      by_cases hrem : st.fileContent.length ≤ st.filePos
      · have hdrop : st.fileContent.drop st.filePos = [] :=
          List.drop_eq_nil_of_le hrem
        have hz : st.fileContent.length - st.filePos = 0 := by omega
        have hstep : handleDataTransfers d st
            = { closeTransfer d st with transferStatus := .idle } := by
          unfold handleDataTransfers doRetrieve
          rw [hst]
          simp [hdrop]
        rw [hstep, runTransfer_idle _ _ _ (by rfl)]
        simp [closeTransfer, hz, hst, hdrop, chunkSizes_zero]
      · have hpos : st.filePos < st.fileContent.length := by omega
        have hclen : ((st.fileContent.drop st.filePos).take FTP_BUF_SIZE).length
            = min FTP_BUF_SIZE (st.fileContent.length - st.filePos) := by
          simp [List.length_take, List.length_drop]
        have hcpos : 0 < ((st.fileContent.drop st.filePos).take FTP_BUF_SIZE).length := by
          rw [hclen]
          simp [FTP_BUF_SIZE]
          omega
        have hstep : handleDataTransfers d st
            = { st with
                  filePos := st.filePos
                    + ((st.fileContent.drop st.filePos).take FTP_BUF_SIZE).length,
                  bytesTransferred := st.bytesTransferred
                    + ((st.fileContent.drop st.filePos).take FTP_BUF_SIZE).length,
                  dataSent := st.dataSent
                    ++ (st.fileContent.drop st.filePos).take FTP_BUF_SIZE,
                  chunks := st.chunks
                    ++ [((st.fileContent.drop st.filePos).take FTP_BUF_SIZE).length] } := by
          unfold handleDataTransfers doRetrieve
          rw [hst]
          dsimp only
          rw [if_pos hcpos]
          simp
        set clen := ((st.fileContent.drop st.filePos).take FTP_BUF_SIZE).length with hcdef
        have hclemrem : clen ≤ st.fileContent.length - st.filePos := by
          rw [hclen]
          exact Nat.min_le_right _ _
        obtain ⟨i1, i2, i3, i4, i5, i6⟩ := ih (handleDataTransfers d st)
          (by rw [hstep]; exact hst) (by rw [hstep]; dsimp only; omega)
        rw [hstep] at i1 i2 i3 i4 i5 i6 ⊢
        dsimp only at i1 i2 i3 i4 i5 i6
        refine ⟨i1, by rw [i2], ?_, ?_, ?_, ?_⟩
        · rw [i3]
          simp only [List.append_assoc]
          congr 1
          have hdd : List.drop (st.filePos + clen) st.fileContent
              = List.drop clen (List.drop st.filePos st.fileContent) := by
            rw [List.drop_drop]
          rw [hdd, hcdef]
          exact take_append_drop_length _ _
        · rw [i4]
          omega
        · rw [i5]
          simp only [List.append_assoc]
          congr 1
          have hrw : st.fileContent.length - (st.filePos + clen)
              = (st.fileContent.length - st.filePos) - clen := by omega
          have hrem0 : ¬ (st.fileContent.length - st.filePos = 0) := by omega
          rw [hrw]
          conv_rhs => rw [chunkSizes]
          rw [dif_neg hrem0, ← hclen]
          rfl
        · rw [i6]
          have harith : st.bytesTransferred + clen
                + (st.fileContent.length - (st.filePos + clen))
              = st.bytesTransferred + (st.fileContent.length - st.filePos) := by
            omega
          rw [harith]

end TransferLemmas

/-- Claim C8: a successfully started `RETR` transfer of a file with
content `content` (size `N = content.length`) moves exactly the file's
bytes to the data channel, one chunk of at most `FTP_BUF_SIZE = 512` bytes
per poll (every chunk positive), counts exactly `N` bytes, and emits the
`226` completion reply exactly once — at the poll that performs the first
zero-byte read, after which the engine is idle.  `fuel` bounds the number
of polls granted by the driver. -/
theorem c8_retr_exact_transfer (content : List Nat) (d fuel : Nat)
    (hfuel : content.length + 1 ≤ fuel) :
    (runTransfer d fuel (startRetrSt content)).dataSent = content ∧
    (runTransfer d fuel (startRetrSt content)).bytesTransferred
      = content.length ∧
    ((runTransfer d fuel (startRetrSt content)).chunks).sum = content.length ∧
    (∀ c ∈ (runTransfer d fuel (startRetrSt content)).chunks,
        0 < c ∧ c ≤ FTP_BUF_SIZE) ∧
    ((runTransfer d fuel (startRetrSt content)).ctrlOut).countP
        isCompletionReply = 1 ∧
    (runTransfer d fuel (startRetrSt content)).transferStatus = .idle := by
  obtain ⟨h1, h2, h3, h4, h5, h6⟩ :=
    runTransfer_retr d fuel (startRetrSt content) rfl
      (by simp [startRetrSt]; omega)
  refine ⟨?_, ?_, ?_, ?_, ?_, h1⟩
  · rw [h3]
    simp [startRetrSt]
  · rw [h4]
    simp [startRetrSt]
  · rw [h5]
    simp [startRetrSt, chunkSizes_sum]
  · intro c hc
    rw [h5] at hc
    simp only [startRetrSt, List.nil_append, Nat.sub_zero] at hc
    exact chunkSizes_mem _ c hc
  · rw [h6]
    simp only [startRetrSt, List.nil_append]
    unfold completionReply
    split_ifs <;> simp [isCompletionReply]

/-- Claim C8 witness: a 3-byte file transfers in one 3-byte chunk with one
completion reply. -/
theorem c8_retr_exact_transfer_witness :
    (runTransfer 5 4 (startRetrSt [7, 7, 7])).dataSent = [7, 7, 7] ∧
    (runTransfer 5 4 (startRetrSt [7, 7, 7])).bytesTransferred = 3 ∧
    (0 < 3 ∧ 3 ≤ FTP_BUF_SIZE) ∧
    ((runTransfer 5 4 (startRetrSt [7, 7, 7])).ctrlOut).countP
        isCompletionReply = 1 :=
  ⟨(c8_retr_exact_transfer [7, 7, 7] 5 4 (by decide)).1,
   (c8_retr_exact_transfer [7, 7, 7] 5 4 (by decide)).2.1,
   (c8_retr_exact_transfer [7, 7, 7] 5 4 (by decide)).2.2.2.1 3 (by decide),
   (c8_retr_exact_transfer [7, 7, 7] 5 4 (by decide)).2.2.2.2.1⟩

section FrameLemmas

/-- `dataConnect` only touches the data-channel flag. -/
theorem dataConnect_frame (s : Session) (env : Env) :
    (dataConnect s env).1.cwd = s.cwd ∧ (dataConnect s env).1.rnfrCmd = s.rnfrCmd := by
  unfold dataConnect
  split
  · exact ⟨rfl, rfl⟩
  · split <;> split_ifs <;> exact ⟨rfl, rfl⟩

/-- `abortTransfer` only touches the transfer and data-channel state. -/
theorem abortTransfer_frame (s : Session) :
    (abortTransfer s).1.cwd = s.cwd ∧ (abortTransfer s).1.rnfrCmd = s.rnfrCmd := by
  unfold abortTransfer
  split_ifs <;> exact ⟨rfl, rfl⟩

/-- `TYPE`, `DELE`, `MKD`, `RMD` and `SIZE` never modify the session. -/
theorem handlers_sess_id (s : Session) (env : Env) (p : Str) :
    (handleTypeCommand s p).sess = s ∧
    (handleDeleCommand s env p).sess = s ∧
    (handleMkdCommand s env p).sess = s ∧
    (handleRmdCommand s env p).sess = s ∧
    (handleSizeCommand s env p).sess = s := by
  refine ⟨?_, ?_, ?_, ?_, ?_⟩ <;>
    first
      | (unfold handleTypeCommand; split_ifs <;> rfl)
      | (unfold handleDeleCommand; (repeat' split) <;> rfl)
      | (unfold handleMkdCommand; (repeat' split) <;> rfl)
      | (unfold handleRmdCommand; (repeat' split) <;> rfl)
      | (unfold handleSizeCommand; (repeat' split) <;> rfl)

/-- `PASV` and `PORT` touch only data-channel parameters. -/
theorem handlePasvPort_frame (s : Session) (env : Env) (p : Str) :
    ((handlePasvCommand s env).sess.cwd = s.cwd ∧
     (handlePasvCommand s env).sess.rnfrCmd = s.rnfrCmd) ∧
    ((handlePortCommand s p).sess.cwd = s.cwd ∧
     (handlePortCommand s p).sess.rnfrCmd = s.rnfrCmd) := by
  refine ⟨⟨rfl, rfl⟩, ?_⟩
  unfold handlePortCommand
  dsimp only
  split_ifs <;> exact ⟨rfl, rfl⟩

/-- `LIST` keeps the working directory and rename marker. -/
theorem handleList_frame (s : Session) (env : Env) (p : Str) :
    (handleListCommand s env p).sess.cwd = s.cwd ∧
    (handleListCommand s env p).sess.rnfrCmd = s.rnfrCmd := by
  have h := dataConnect_frame s env
  unfold handleListCommand
  cases hdc : dataConnect s env with
  | mk s1 b =>
      rw [hdc] at h
      cases b
      · exact h
      · dsimp only
        cases makePath s1.cwd p
        · exact h
        · dsimp only
          split_ifs <;> exact h

/-- `MLSD` keeps the working directory and rename marker. -/
theorem handleMlsd_frame (s : Session) (env : Env) (p : Str) :
    (handleMlsdCommand s env p).sess.cwd = s.cwd ∧
    (handleMlsdCommand s env p).sess.rnfrCmd = s.rnfrCmd := by
  have h := dataConnect_frame s env
  unfold handleMlsdCommand
  cases hdc : dataConnect s env with
  | mk s1 b =>
      rw [hdc] at h
      cases b
      · exact h
      · dsimp only
        cases makePath s1.cwd (if p = [] then ['.'] else p)
        · exact h
        · dsimp only
          split_ifs <;> exact h

/-- `RETR` keeps the working directory and rename marker. -/
theorem handleRetr_frame (s : Session) (env : Env) (p : Str) :
    (handleRetrCommand s env p).sess.cwd = s.cwd ∧
    (handleRetrCommand s env p).sess.rnfrCmd = s.rnfrCmd := by
  have h := dataConnect_frame s env
  unfold handleRetrCommand
  split_ifs
  · exact ⟨rfl, rfl⟩
  · cases makePath s.cwd p
    · exact ⟨rfl, rfl⟩
    · dsimp only
      split_ifs
      · cases hdc : dataConnect s env with
        | mk s1 b =>
            rw [hdc] at h
            cases b
            · exact h
            · exact h
      · exact ⟨rfl, rfl⟩

/-- `STOR` keeps the working directory and rename marker. -/
theorem handleStor_frame (s : Session) (env : Env) (p : Str) :
    (handleStorCommand s env p).sess.cwd = s.cwd ∧
    (handleStorCommand s env p).sess.rnfrCmd = s.rnfrCmd := by
  have h := dataConnect_frame s env
  unfold handleStorCommand
  split_ifs
  · exact ⟨rfl, rfl⟩
  · cases makePath s.cwd p
    · exact ⟨rfl, rfl⟩
    · dsimp only
      split_ifs
      · exact ⟨rfl, rfl⟩
      · cases hdc : dataConnect s env with
        | mk s1 b =>
            rw [hdc] at h
            cases b
            · exact h
            · exact h
      · exact ⟨rfl, rfl⟩

/-- `CDUP` never emits a path-rejection or data-channel-failure reply. -/
theorem handleCdup_no_fail_reply (s : Session) :
    Reply.invalidPath ∉ (handleCdupCommand s).replies ∧
    Reply.cantOpenData ∉ (handleCdupCommand s).replies := by
  unfold handleCdupCommand
  (repeat' split) <;> simp

/-- On a path-rejection or data-channel failure `CWD` leaves the session
untouched. -/
theorem handleCwd_frame (s : Session) (env : Env) (p : Str)
    (h : Reply.invalidPath ∈ (handleCwdCommand s env p).replies ∨
         Reply.cantOpenData ∈ (handleCwdCommand s env p).replies) :
    (handleCwdCommand s env p).sess = s := by
  unfold handleCwdCommand at h ⊢
  split_ifs at h ⊢
  · simp at h
  · cases hmk : makePath s.cwd p with
    | none => rfl
    | some path =>
        rw [hmk] at h
        dsimp only at h ⊢
        split_ifs at h ⊢ <;> simp at h

/-- On a path-rejection `RNFR` can update `_renameFrom` but keeps the
working directory and the rename marker. -/
theorem handleRnfr_frame (s : Session) (env : Env) (p : Str)
    (h : Reply.invalidPath ∈ (handleRnfrCommand s env p).replies ∨
         Reply.cantOpenData ∈ (handleRnfrCommand s env p).replies) :
    (handleRnfrCommand s env p).sess.cwd = s.cwd ∧
    (handleRnfrCommand s env p).sess.rnfrCmd = s.rnfrCmd := by
  unfold handleRnfrCommand at h ⊢
  split_ifs at h ⊢
  · simp at h
  · cases hmk : makePath s.cwd p with
    | none => exact ⟨rfl, rfl⟩
    | some path =>
        rw [hmk] at h
        dsimp only at h ⊢
        split_ifs at h ⊢ <;> simp at h

/-- `RNTO` never modifies the working directory. -/
theorem handleRnto_cwd (s : Session) (env : Env) (p : Str) :
    (handleRntoCommand s env p).sess.cwd = s.cwd := by
  unfold handleRntoCommand
  (repeat' split) <;> rfl

end FrameLemmas

/-- Claim C5 counterexample: the claim says every command whose path
resolution fails leaves the rename-pending marker unchanged, but `RNTO`
with a rejected destination (`../x`) clears the marker that the prior
`RNFR` had set. -/
theorem c5_counterexample :
    (Reply.invalidPath ∈ (processCommand { demoSession with rnfrCmd := true }
        envAllOk (str "RNTO") (str "../x")).replies ∨
     Reply.cantOpenData ∈ (processCommand { demoSession with rnfrCmd := true }
        envAllOk (str "RNTO") (str "../x")).replies) ∧
    ¬ ((processCommand { demoSession with rnfrCmd := true }
          envAllOk (str "RNTO") (str "../x")).sess.cwd
            = ({ demoSession with rnfrCmd := true } : Session).cwd ∧
       (processCommand { demoSession with rnfrCmd := true }
          envAllOk (str "RNTO") (str "../x")).sess.rnfrCmd
            = ({ demoSession with rnfrCmd := true } : Session).rnfrCmd) := by
  refine ⟨Or.inl (List.Mem.head _), fun hcontra => ?_⟩
  exact absurd hcontra.2 (by decide)

/-- Claim C5 (amended): for every command whose path resolution fails
(`550 Invalid path`) or whose data-channel establishment fails
(`425 Can't open data connection`), the session's working directory is
unchanged, and the rename-pending marker is unchanged for every verb
except `RNTO` — whose contract is to clear the marker in every outcome,
including these failures. -/
theorem c5_failed_command_frame (s : Session) (env : Env) (command params : Str)
    (h : Reply.invalidPath ∈ (processCommand s env command params).replies ∨
         Reply.cantOpenData ∈ (processCommand s env command params).replies) :
    (processCommand s env command params).sess.cwd = s.cwd ∧
    (command ≠ str "RNTO" →
      (processCommand s env command params).sess.rnfrCmd = s.rnfrCmd) := by
  by_cases h1 : command = str "CDUP"
  · have hpc : processCommand s env command params = handleCdupCommand s := by
      rw [h1]; rfl
    rw [hpc] at h
    rcases h with h | h
    · exact absurd h (handleCdup_no_fail_reply s).1
    · exact absurd h (handleCdup_no_fail_reply s).2
  by_cases h2 : command = str "CWD"
  · have hpc : processCommand s env command params
        = handleCwdCommand s env params := by rw [h2]; rfl
    rw [hpc] at h ⊢
    rw [handleCwd_frame s env params h]
    exact ⟨rfl, fun _ => rfl⟩
  by_cases h3 : command = str "PWD"
  · have hpc : processCommand s env command params
        = ⟨s, [.pwdIs s.cwd], [], [], true⟩ := by rw [h3]; rfl
    rw [hpc] at h
    simp at h
  by_cases h4 : command = str "QUIT"
  · have hpc : processCommand s env command params
        = ⟨(disconnectClient s).1, (disconnectClient s).2, [], [], false⟩ := by
      rw [h4]; rfl
    rw [hpc] at h ⊢
    have ha := abortTransfer_frame s
    unfold disconnectClient at h ⊢
    rcases h with h | h <;>
      · simp only [List.mem_append] at h
        rcases h with h | h
        · rcases habort : abortTransfer s with ⟨s1, r⟩
          rw [habort] at h ha
          unfold abortTransfer at habort
          split_ifs at habort
          · cases habort
            simp at h
          · cases habort
            simp at h
        · simp at h
  by_cases h5 : command = str "PASV"
  · have hpc : processCommand s env command params = handlePasvCommand s env := by
      rw [h5]; rfl
    rw [hpc] at h
    simp [handlePasvCommand] at h
  by_cases h6 : command = str "PORT"
  · have hpc : processCommand s env command params = handlePortCommand s params := by
      rw [h6]; rfl
    rw [hpc] at h ⊢
    refine ⟨(handlePasvPort_frame s env params).2.1,
            fun _ => (handlePasvPort_frame s env params).2.2⟩
  by_cases h7 : command = str "TYPE"
  · have hpc : processCommand s env command params = handleTypeCommand s params := by
      rw [h7]; rfl
    rw [hpc] at h ⊢
    rw [(handlers_sess_id s env params).1]
    exact ⟨rfl, fun _ => rfl⟩
  by_cases h8 : command = str "LIST"
  · have hpc : processCommand s env command params
        = handleListCommand s env params := by rw [h8]; rfl
    rw [hpc] at h ⊢
    exact ⟨(handleList_frame s env params).1,
           fun _ => (handleList_frame s env params).2⟩
  by_cases h9 : command = str "MLSD"
  · have hpc : processCommand s env command params
        = handleMlsdCommand s env params := by rw [h9]; rfl
    rw [hpc] at h ⊢
    exact ⟨(handleMlsd_frame s env params).1,
           fun _ => (handleMlsd_frame s env params).2⟩
  by_cases h10 : command = str "RETR"
  · have hpc : processCommand s env command params
        = handleRetrCommand s env params := by rw [h10]; rfl
    rw [hpc] at h ⊢
    exact ⟨(handleRetr_frame s env params).1,
           fun _ => (handleRetr_frame s env params).2⟩
  by_cases h11 : command = str "STOR"
  · have hpc : processCommand s env command params
        = handleStorCommand s env params := by rw [h11]; rfl
    rw [hpc] at h ⊢
    exact ⟨(handleStor_frame s env params).1,
           fun _ => (handleStor_frame s env params).2⟩
  by_cases h12 : command = str "DELE"
  · have hpc : processCommand s env command params
        = handleDeleCommand s env params := by rw [h12]; rfl
    rw [hpc] at h ⊢
    rw [(handlers_sess_id s env params).2.1]
    exact ⟨rfl, fun _ => rfl⟩
  by_cases h13 : command = str "MKD"
  · have hpc : processCommand s env command params
        = handleMkdCommand s env params := by rw [h13]; rfl
    rw [hpc] at h ⊢
    rw [(handlers_sess_id s env params).2.2.1]
    exact ⟨rfl, fun _ => rfl⟩
  by_cases h14 : command = str "RMD"
  · have hpc : processCommand s env command params
        = handleRmdCommand s env params := by rw [h14]; rfl
    rw [hpc] at h ⊢
    rw [(handlers_sess_id s env params).2.2.2.1]
    exact ⟨rfl, fun _ => rfl⟩
  by_cases h15 : command = str "RNFR"
  · have hpc : processCommand s env command params
        = handleRnfrCommand s env params := by rw [h15]; rfl
    rw [hpc] at h ⊢
    exact ⟨(handleRnfr_frame s env params h).1,
           fun _ => (handleRnfr_frame s env params h).2⟩
  by_cases h16 : command = str "RNTO"
  · have hpc : processCommand s env command params
        = handleRntoCommand s env params := by rw [h16]; rfl
    rw [hpc]
    exact ⟨handleRnto_cwd s env params, fun hne => absurd h16 hne⟩
  by_cases h17 : command = str "FEAT"
  · have hpc : processCommand s env command params
        = ⟨s, [.featLine "211-Extensions supported:", .featLine " MLSD",
               .featLine " SIZE", .featLine " MDTM", .featLine "211 End"],
            [], [], true⟩ := by rw [h17]; rfl
    rw [hpc] at h
    simp at h
  by_cases h18 : command = str "SIZE"
  · have hpc : processCommand s env command params
        = handleSizeCommand s env params := by rw [h18]; rfl
    rw [hpc] at h ⊢
    rw [(handlers_sess_id s env params).2.2.2.2]
    exact ⟨rfl, fun _ => rfl⟩
  by_cases h19 : command = str "SYST"
  · have hpc : processCommand s env command params
        = ⟨s, [.systemType], [], [], true⟩ := by rw [h19]; rfl
    rw [hpc] at h
    simp at h
  · have hpc : processCommand s env command params
        = ⟨s, [.unknownCommand], [], [], true⟩ := by
      unfold processCommand
      rw [if_neg h1, if_neg h2, if_neg h3, if_neg h4, if_neg h5, if_neg h6,
          if_neg h7, if_neg h8, if_neg h9, if_neg h10, if_neg h11, if_neg h12,
          if_neg h13, if_neg h14, if_neg h15, if_neg h16, if_neg h17,
          if_neg h18, if_neg h19]
    rw [hpc] at h
    simp at h

/-- Claim C5 witness: a `LIST` whose passive accept times out replies
`425` and leaves working directory and rename marker unchanged. -/
theorem c5_failed_command_frame_witness :
    (Reply.invalidPath ∈ (processCommand demoSession envNoData
        (str "LIST") []).replies ∨
     Reply.cantOpenData ∈ (processCommand demoSession envNoData
        (str "LIST") []).replies) ∧
    (processCommand demoSession envNoData (str "LIST") []).sess.cwd
      = demoSession.cwd ∧
    (processCommand demoSession envNoData (str "LIST") []).sess.rnfrCmd
      = demoSession.rnfrCmd :=
  ⟨Or.inr (List.Mem.head _),
   (c5_failed_command_frame demoSession envNoData (str "LIST") []
     (Or.inr (List.Mem.head _))).1,
   (c5_failed_command_frame demoSession envNoData (str "LIST") []
     (Or.inr (List.Mem.head _))).2 (by decide)⟩

section HeadLemmas

/-- A list with a head is not empty. -/
theorem ne_nil_of_head?_some {α : Type} (l : List α) (a : α)
    (h : l.head? = some a) : l ≠ [] := by
  cases l
  · simp at h
  · simp

/-- The head of an append is the head of its non-empty left part. -/
theorem head?_append_left {α : Type} (a b : List α) (h : a ≠ []) :
    (a ++ b).head? = a.head? := by
  cases a
  · exact absurd rfl h
  · rfl

/-- A positive take keeps the head. -/
theorem head?_take_pos {α : Type} (l : List α) (n : Nat) (h : n ≠ 0) :
    (l.take n).head? = l.head? := by
  cases l
  · simp
  · cases n
    · exact absurd rfl h
    · rfl

/-- Dropping the last element of a list of two or more keeps the head. -/
theorem head?_dropLast_of_lt {α : Type} (l : List α) (h : 1 < l.length) :
    l.dropLast.head? = l.head? := by
  cases l with
  | nil => simp at h
  | cons a t =>
      cases t with
      | nil => simp at h
      | cons b u => rfl

/-- `strlcpy` into the path buffer keeps a leading slash. -/
theorem strlcpy_head (l : Str) (h : l.head? = some '/') :
    (strlcpy l FTP_CWD_SIZE).head? = some '/' := by
  unfold strlcpy
  rw [head?_take_pos _ _ (by norm_num [FTP_CWD_SIZE])]
  exact h

/-- `strlcat` keeps the leading slash of its destination. -/
theorem strlcat_head (dst src : Str) (size : Nat) (h : dst.head? = some '/') :
    (strlcat dst src size).head? = some '/' := by
  unfold strlcat
  rw [head?_append_left _ _ (ne_nil_of_head?_some _ _ h)]
  exact h

/-- The `fullPath` buffer built by `makePath` for a non-trivial argument
starts with a slash whenever the working directory does. -/
theorem resolveNonEmpty_head (cwd param : Str) (hc : cwd.head? = some '/') :
    (resolveNonEmpty cwd param).head? = some '/' := by
  unfold resolveNonEmpty
  dsimp only
  by_cases hrel : param.head? ≠ some '/'
  · rw [if_pos hrel]
    by_cases hsl : (strlcpy cwd FTP_CWD_SIZE).getLast? ≠ some '/'
    · rw [if_pos hsl]
      have hg : (strlcat (strlcat (strlcpy cwd FTP_CWD_SIZE) ['/'] FTP_CWD_SIZE)
          param FTP_CWD_SIZE).head? = some '/' :=
        strlcat_head _ _ _ (strlcat_head _ _ _ (strlcpy_head cwd hc))
      split_ifs with hdrop
      · rw [head?_dropLast_of_lt _ hdrop.1]
        exact hg
      · exact hg
    · rw [if_neg hsl]
      have hg : (strlcat (strlcpy cwd FTP_CWD_SIZE) param FTP_CWD_SIZE).head?
          = some '/' :=
        strlcat_head _ _ _ (strlcpy_head cwd hc)
      split_ifs with hdrop
      · rw [head?_dropLast_of_lt _ hdrop.1]
        exact hg
      · exact hg
  · rw [if_neg hrel]
    push_neg at hrel
    have hg : (strlcpy param FTP_CWD_SIZE).head? = some '/' :=
      strlcpy_head param hrel
    split_ifs with hdrop
    · rw [head?_dropLast_of_lt _ hdrop.1]
      exact hg
    · exact hg

/-- Every accepted `makePath` result is slash-rooted, given a slash-rooted
working directory. -/
theorem makePath_slashRooted (cwd param path : Str) (hc : cwd.head? = some '/')
    (hmk : makePath cwd param = some path) : path.head? = some '/' := by
  unfold makePath at hmk
  split_ifs at hmk with he htr
  · simp only [Option.some.injEq] at hmk
    subst hmk
    rfl
  · simp only [Option.some.injEq] at hmk
    subst hmk
    exact resolveNonEmpty_head cwd param hc

end HeadLemmas

/-- Claim C10 counterexample: the claimed invariant (absolute slash-rooted
path with no trailing slash except the root) holds at the root, but a
single `CWD a//` (accepted by `makePath`, which strips only one trailing
slash, and reported as a directory by the filesystem backend) sets the
working directory to `/a/`, which has a trailing slash and is not the
root. -/
theorem c10_counterexample :
    goodCwd demoSession.cwd ∧
    (processCommand demoSession envAllOk (str "CWD") (str "a//")).sess.cwd
      = str "/a/" ∧
    ¬ goodCwd (processCommand demoSession envAllOk (str "CWD")
        (str "a//")).sess.cwd := by
  decide

/-- Claim C10 (amended): after `initVariables` (session reset) the working
directory is exactly the root `/`, which satisfies the claimed invariant;
`CDUP` and `CWD` always preserve the absolute slash-rooted part; but the
no-trailing-slash part is not preserved by `CWD`, whose argument may end
in two slashes (see the counterexample), so only slash-rootedness is
invariant. -/
theorem c10_cwd_slash_rooted :
    (∀ s : Session, (initVariables s).cwd = ['/'] ∧ goodCwd (initVariables s).cwd) ∧
    (∀ s : Session, slashRooted s.cwd →
        slashRooted (handleCdupCommand s).sess.cwd) ∧
    (∀ (s : Session) (env : Env) (p : Str), slashRooted s.cwd →
        slashRooted (handleCwdCommand s env p).sess.cwd) := by
  refine ⟨fun s => ⟨rfl, (by decide : goodCwd ['/'])⟩, ?_, ?_⟩
  · intro s hs
    unfold handleCdupCommand
    split_ifs with h0
    · exact hs
    · cases hli : lastIdxOf '/' s.cwd with
      | none => exact hs
      | some i =>
          dsimp only
          split_ifs with hi
          · unfold slashRooted at hs ⊢
            dsimp only
            rw [head?_take_pos _ _ hi]
            exact hs
          · exact hs
  · intro s env p hs
    unfold handleCwdCommand
    split_ifs with hdot
    · exact hs
    · cases hmk : makePath s.cwd p with
      | none => exact hs
      | some path =>
          dsimp only
          split_ifs with hdir
          · unfold slashRooted at hs ⊢
            dsimp only
            exact strlcpy_head path (makePath_slashRooted s.cwd p path hs hmk)
          · exact hs

/-- Claim C10 witness: slash-rootedness concretely preserved by `CDUP`
from `/` and by `CWD a` from `/`. -/
theorem c10_cwd_slash_rooted_witness :
    slashRooted demoSession.cwd ∧
    (initVariables demoSession).cwd = ['/'] ∧
    slashRooted (handleCdupCommand demoSession).sess.cwd ∧
    slashRooted (handleCwdCommand demoSession envAllOk (str "a")).sess.cwd :=
  ⟨by decide,
   (c10_cwd_slash_rooted.1 demoSession).1,
   c10_cwd_slash_rooted.2.1 demoSession (by decide),
   c10_cwd_slash_rooted.2.2 demoSession envAllOk (str "a") (by decide)⟩

end FtpServer
